import Mathlib

/-!
Verification of the quote-generation and order-lifecycle engine of the
`hbc` market-making bot (`src/utils.py`, `src/hibachi_mm_engine.py`).

Modelling conventions:
* Python `float` arithmetic is modelled over `ℚ` (exact rational
  arithmetic); Python `Decimal` arithmetic in the quantizer is likewise
  exact over `ℚ`, with the truncating division `//` and remainder `%` of
  `Decimal` modelled explicitly (`decDiv`, `decMod`).
* Gateway calls are modelled by explicit outcome values (`PlaceOutcome`,
  `CancelOutcome`) supplied as inputs; a Python exception raised by a
  gateway call is the `exn` outcome.  Logging is ignored (it has no
  state effect).
* The engine method `step()` is modelled from the point where the mid
  price, the ATR value, the latest true range and the equity have been
  computed (line 295 of `hibachi_mm_engine.py`) to its end (line 427):
  the earlier part of `step` only refreshes the bar / mark-price /
  equity bookkeeping, which the claims under study treat as step inputs.
  `stepQuote` returns the successor engine state together with the list
  of gateway order actions (cancels and placements) issued by the cycle;
  an aborted cycle returns the state unchanged and an empty action list,
  and total functions model the fact that `step` catches nothing because
  nothing in the modelled region raises.
-/

namespace HBC

/-- Function `clamp` of `utils.py`: `max(lo, min(hi, x))`. -/
def clamp (x lo hi : ℚ) : ℚ := max lo (min hi x)

/-- Function `bps_to_price` of `utils.py`: `px * (bps / 10000.0)`. -/
def bps_to_price (px bps : ℚ) : ℚ := px * (bps / 10000)

/-- Function `pct_of` of `utils.py`: `x * (p / 100.0)`. -/
def pct_of (x p : ℚ) : ℚ := x * (p / 100)

/-- Python `Decimal` floor division `v // s`: the integer part of the
true quotient, truncated toward zero. -/
def decDiv (v s : ℚ) : ℤ := if 0 ≤ v / s then ⌊v / s⌋ else -⌊-(v / s)⌋

/-- Python `Decimal` remainder `v % s` (sign follows the dividend),
so that `v == (v // s) * s + v % s`. -/
def decMod (v s : ℚ) : ℚ := v - decDiv v s * s

/-- Dataclass `ContractSpec` of `utils.py` (defaults as in the source;
the `symbol` string is irrelevant to the verified behaviour). -/
structure ContractSpec where
  tick_size : ℚ := 1/100
  step_size : ℚ := 1/1000
  min_qty : ℚ := 1/1000
  min_notional : ℚ := 10
  contract_size : ℚ := 1
deriving DecidableEq

/-- Method `ContractSpec.q_price`: quantize price down to `tick_size`,
`float((Decimal(str(price)) // Decimal(str(tick))) * Decimal(str(tick)))`. -/
def ContractSpec.q_price (c : ContractSpec) (price : ℚ) : ℚ :=
  decDiv price c.tick_size * c.tick_size

/-- Method `ContractSpec.q_price_floor`: alias of `q_price` (used for bids). -/
def ContractSpec.q_price_floor (c : ContractSpec) (price : ℚ) : ℚ :=
  c.q_price price

/-- Method `ContractSpec.q_price_ceil`: round price up to `tick_size`,
except that an exact multiple is returned unchanged (`if v % s == 0`). -/
def ContractSpec.q_price_ceil (c : ContractSpec) (price : ℚ) : ℚ :=
  if decMod price c.tick_size = 0 then price
  else (decDiv price c.tick_size + 1) * c.tick_size

/-- Method `ContractSpec.q_qty`: quantize quantity down to `step_size`. -/
def ContractSpec.q_qty (c : ContractSpec) (qty : ℚ) : ℚ :=
  decDiv qty c.step_size * c.step_size

/-- Class `ATR` of `utils.py`: state of the Wilder average-true-range
estimator (`len`, `rma`, `prev_close`, `alpha`). -/
structure ATR where
  len : ℕ
  rma : Option ℚ
  prev_close : Option ℚ
  alpha : ℚ
deriving DecidableEq

/-- Constructor `ATR.__init__(length)`: `rma = None`, `prev_close = None`,
`alpha = 1.0 / length`. -/
def ATR.init (length : ℕ) : ATR :=
  { len := length, rma := none, prev_close := none, alpha := 1 / length }

/-- Method `ATR._tr`: true range of a bar given the previous close. -/
def ATR.trueRange (h l : ℚ) (c_prev : Option ℚ) : ℚ :=
  match c_prev with
  | none => h - l
  | some c => max (h - l) (max |h - c| |l - c|)

/-- Method `ATR.update_bar(o, h, l, c, closed)`: returns the updated
estimator state together with `(rma, tr)` as in the source.  The open
price `o` is unused by the source body and therefore unused here. -/
def ATR.update_bar (a : ATR) (_o h l c : ℚ) (closed : Bool) : ATR × ℚ × ℚ :=
  let tr := ATR.trueRange h l a.prev_close
  let rma :=
    match a.rma with
    | none => tr
    | some r => (1 - a.alpha) * r + a.alpha * tr
  let pc := if closed then some c else a.prev_close
  ({ len := a.len, rma := some rma, prev_close := pc, alpha := a.alpha }, rma, tr)

/-- Dataclass `SideState` of `hibachi_mm_engine.py`: the record tracked
for one resting side; all fields default to `None`. -/
structure SideState where
  client_id : Option String := none
  order_id : Option String := none
  price : Option ℚ := none
  qty : Option ℚ := none
deriving DecidableEq

/-- Engine state `MMState` restricted to the fields read or written by
the modelled region of `step()` (the bar / mark-price / equity caching
fields are step inputs in this model). -/
structure MMState where
  bid : SideState := {}
  ask : SideState := {}
  prev_mid : Option ℚ := none
  pos_qty : ℚ := 0
  order_count_1min : ℕ := 0
  last_order_reset : ℚ := 0
  quote_count : ℕ := 0
deriving DecidableEq

/-- Configuration record: the `cfg` keys read by the modelled region of
`step()`, with the source defaults for the keys read through `.get`. -/
structure Params where
  invBudgetPct : ℚ
  baseOrderPct : ℚ
  slipGuardATR : ℚ := 0
  requoteBps : ℚ := 10
  minFullBps : ℚ
  maxFullBps : ℚ
  kATR : ℚ
  bullBiasBps : ℚ := 0
  useBullBias : Bool := false
  skewDamp : ℚ := 3/10
  sizeAmp : ℚ := 3/2
  longBiasOnly : Bool := false
deriving DecidableEq

/-- Line 312 of `hibachi_mm_engine.py`:
`skew = clamp(position_notional / max_notional if max_notional > 0 else 0, -1.0, 1.0)`. -/
def skewOf (position_notional max_notional : ℚ) : ℚ :=
  clamp (if max_notional > 0 then position_notional / max_notional else 0) (-1) 1

/-- Result of the pure quote computation of `step()` (lines 295 to 388):
every value the subsequent order-action block reads. -/
structure Quote where
  should_quote : Bool
  skew : ℚ
  half_w : ℚ
  bid_px_q : ℚ
  ask_px_q : ℚ
  bid_qty_q : ℚ
  ask_qty_q : ℚ
  can_buy : Bool
  can_sell : Bool
  bid_ok : Bool
  ask_ok : Bool
deriving DecidableEq

/-- Lines 295 to 302 of `step()`: the volatility-spike guard and the
requote trigger, `should_quote = (not big_move) and mid_changed`. -/
def should_quoteOf (p : Params) (prev_mid : Option ℚ) (m atr_val tr1 : ℚ) : Bool :=
  let big_move : Bool :=
    decide (p.slipGuardATR > 0) && decide (tr1 > p.slipGuardATR * atr_val)
  let mid_changed : Bool :=
    match prev_mid with
    | none => true
    | some pm => decide (|m - pm| > bps_to_price m p.requoteBps)
  !big_move && mid_changed

/-- Line 306: `max_notional = equity * (invBudgetPct / 100)`. -/
def max_notionalOf (p : Params) (equity : ℚ) : ℚ :=
  equity * (p.invBudgetPct / 100)

/-- Line 312 applied to the cycle inputs
(`position_notional = pos_qty * m`, line 305). -/
def skewCycle (p : Params) (pos_qty m equity : ℚ) : ℚ :=
  skewOf (pos_qty * m) (max_notionalOf p equity)

/-- Lines 314 to 316: the half width `kATR * atr` clamped between the
bps floor and ceiling. -/
def half_wOf (p : Params) (m atr_val : ℚ) : ℚ :=
  clamp (p.kATR * atr_val) (bps_to_price m (p.minFullBps * (1/2)))
    (bps_to_price m (p.maxFullBps * (1/2)))

/-- Lines 318 to 319: the bull-bias shift. -/
def bull_shiftOf (p : Params) (m : ℚ) : ℚ :=
  if p.useBullBias then bps_to_price m p.bullBiasBps else 0

/-- Lines 321 to 322: the inventory offset
`skewDamp * |skew| * half_w * sgn(skew)`. -/
def inv_offsetOf (p : Params) (pos_qty m equity atr_val : ℚ) : ℚ :=
  let skew := skewCycle p pos_qty m equity
  let sgn : ℚ := if skew > 0 then 1 else if skew < 0 then -1 else 0
  p.skewDamp * |skew| * half_wOf p m atr_val * sgn

/-- Line 329: the minimum-spread safety margin `m * 0.0015`. -/
def min_offsetOf (m : ℚ) : ℚ := m * (15 / 10000)

/-- Lines 325 and 332 to 334: the raw bid price and its safety-margin
correction (`if bid_px >= m - min_offset: bid_px = m - min_offset`). -/
def bid_pxOf (p : Params) (pos_qty m equity atr_val : ℚ) : ℚ :=
  let raw := m - half_wOf p m atr_val + bull_shiftOf p m
    - inv_offsetOf p pos_qty m equity atr_val
  if raw ≥ m - min_offsetOf m then m - min_offsetOf m else raw

/-- Lines 324 and 336 to 338: the raw ask price and its safety-margin
correction (`if ask_px <= m + min_offset: ask_px = m + min_offset`). -/
def ask_pxOf (p : Params) (pos_qty m equity atr_val : ℚ) : ℚ :=
  let raw := m + half_wOf p m atr_val + bull_shiftOf p m
    - inv_offsetOf p pos_qty m equity atr_val
  if raw ≤ m + min_offsetOf m then m + min_offsetOf m else raw

/-- Lines 340 to 355: bid sizing (`base_usd * bid_mult` dollars turned
into contracts at the bid price) quantized to the step size. -/
def bid_qty_qOf (p : Params) (c : ContractSpec) (pos_qty m equity atr_val : ℚ) : ℚ :=
  c.q_qty (pct_of equity p.baseOrderPct *
    (1 + p.sizeAmp * max 0 (-(skewCycle p pos_qty m equity))) /
    bid_pxOf p pos_qty m equity atr_val)

/-- Lines 340 to 356: ask sizing quantized to the step size. -/
def ask_qty_qOf (p : Params) (c : ContractSpec) (pos_qty m equity atr_val : ℚ) : ℚ :=
  c.q_qty (pct_of equity p.baseOrderPct *
    (1 + p.sizeAmp * max 0 (skewCycle p pos_qty m equity)) /
    ask_pxOf p pos_qty m equity atr_val)

/-- Line 359: the quantized bid price before the sanity correction. -/
def bid_px_q0Of (p : Params) (c : ContractSpec) (pos_qty m equity atr_val : ℚ) : ℚ :=
  c.q_price_floor (bid_pxOf p pos_qty m equity atr_val)

/-- Line 358: the quantized ask price before the sanity correction. -/
def ask_px_q0Of (p : Params) (c : ContractSpec) (pos_qty m equity atr_val : ℚ) : ℚ :=
  c.q_price_ceil (ask_pxOf p pos_qty m equity atr_val)

/-- Lines 366 to 369: post-quantization sanity correction of the bid. -/
def bid_px_qOf (p : Params) (c : ContractSpec) (pos_qty m equity atr_val : ℚ) : ℚ :=
  if bid_px_q0Of p c pos_qty m equity atr_val ≥ m
  then c.q_price_floor (m - min_offsetOf m)
  else bid_px_q0Of p c pos_qty m equity atr_val

/-- Lines 371 to 374: post-quantization sanity correction of the ask. -/
def ask_px_qOf (p : Params) (c : ContractSpec) (pos_qty m equity atr_val : ℚ) : ℚ :=
  if ask_px_q0Of p c pos_qty m equity atr_val ≤ m
  then c.q_price_ceil (m + min_offsetOf m)
  else ask_px_q0Of p c pos_qty m equity atr_val

/-- Line 376: `can_buy = position_notional < max_notional`. -/
def can_buyOf (p : Params) (pos_qty m equity : ℚ) : Bool :=
  decide (pos_qty * m < max_notionalOf p equity)

/-- Lines 377 to 380: `can_sell = pos_qty > 0` under `longBiasOnly`,
else `position_notional > -max_notional`. -/
def can_sellOf (p : Params) (pos_qty m equity : ℚ) : Bool :=
  if p.longBiasOnly then decide (pos_qty > 0)
  else decide (pos_qty * m > -max_notionalOf p equity)

/-- Lines 382 to 388: bid eligibility, `qty >= min_qty` and
`price * qty >= min_notional`. -/
def bid_okOf (p : Params) (c : ContractSpec) (pos_qty m equity atr_val : ℚ) : Bool :=
  decide (bid_qty_qOf p c pos_qty m equity atr_val ≥ c.min_qty) &&
  decide (bid_px_qOf p c pos_qty m equity atr_val *
    bid_qty_qOf p c pos_qty m equity atr_val ≥ c.min_notional)

/-- Lines 382 to 387: ask eligibility. -/
def ask_okOf (p : Params) (c : ContractSpec) (pos_qty m equity atr_val : ℚ) : Bool :=
  decide (ask_qty_qOf p c pos_qty m equity atr_val ≥ c.min_qty) &&
  decide (ask_px_qOf p c pos_qty m equity atr_val *
    ask_qty_qOf p c pos_qty m equity atr_val ≥ c.min_notional)

/-- The record of values the order-action block of `step()` reads. -/
def quoteVal (p : Params) (c : ContractSpec) (prev_mid : Option ℚ)
    (pos_qty m atr_val tr1 equity : ℚ) : Quote :=
  { should_quote := should_quoteOf p prev_mid m atr_val tr1,
    skew := skewCycle p pos_qty m equity,
    half_w := half_wOf p m atr_val,
    bid_px_q := bid_px_qOf p c pos_qty m equity atr_val,
    ask_px_q := ask_px_qOf p c pos_qty m equity atr_val,
    bid_qty_q := bid_qty_qOf p c pos_qty m equity atr_val,
    ask_qty_q := ask_qty_qOf p c pos_qty m equity atr_val,
    can_buy := can_buyOf p pos_qty m equity,
    can_sell := can_sellOf p pos_qty m equity,
    bid_ok := bid_okOf p c pos_qty m equity atr_val,
    ask_ok := ask_okOf p c pos_qty m equity atr_val }

/-- Lines 295 to 388 of `step()`: the quote computation, from the
volatility-spike guard to the per-side eligibility checks.  Returns
`none` exactly where the source logs and returns early: non-positive
`max_notional` (line 308), non-positive corrected raw price (line 348),
and non-positive quantized price (line 361). -/
def computeQuote (p : Params) (c : ContractSpec) (prev_mid : Option ℚ)
    (pos_qty m atr_val tr1 equity : ℚ) : Option Quote :=
  if max_notionalOf p equity ≤ 0 then none
  else if bid_pxOf p pos_qty m equity atr_val ≤ 0 ∨
    ask_pxOf p pos_qty m equity atr_val ≤ 0 then none
  else if ask_px_q0Of p c pos_qty m equity atr_val ≤ 0 ∨
    bid_px_q0Of p c pos_qty m equity atr_val ≤ 0 then none
  else some (quoteVal p c prev_mid pos_qty m atr_val tr1 equity)

/-- Method `_check_rate_limit` (lines 79 to 87): reset the counter when
the window has elapsed, then refuse when the counter is at or above the
cap.  Returns `(allowed, order_count_1min, last_order_reset)`. -/
def check_rate_limit (max_orders : ℕ) (now : ℚ) (count : ℕ) (last_reset : ℚ) :
    Bool × ℕ × ℚ :=
  let cl : ℕ × ℚ := if now - last_reset ≥ 60 then (0, now) else (count, last_reset)
  if cl.1 ≥ max_orders then (false, cl.1, cl.2) else (true, cl.1, cl.2)

/-- Outcome of one gateway `place_order` call as seen by `_place_limit`:
either the call returns (with the extracted order id, `none` when the
response carries no id or is not a dict), or it raises. -/
inductive PlaceOutcome where
  | ok (oid : Option String)
  | exn (msg : String)
deriving DecidableEq

/-- Method `_place_limit` (lines 432 to 478): on a returning call the
counter is incremented and `SideState(cid, oid, price, qty)` returned;
when the call raises, the handler returns an empty `SideState` and the
increment (which sits inside the `try` block after the call) is skipped.
The price / quantity string formatting is value-preserving for prices
and quantities already quantized to the contract increments, and is
modelled as the identity. -/
def place_limit (cid : String) (price qty : ℚ) (outcome : PlaceOutcome)
    (order_count : ℕ) : SideState × ℕ :=
  match outcome with
  | .ok oid =>
      ({ client_id := some cid, order_id := oid, price := some price,
         qty := some qty }, order_count + 1)
  | .exn _ => ({}, order_count)

/-- Outcome of one gateway `cancel_order` call as seen by `_cancel_side`:
either the call returns (with the status field of the response, `none`
when absent or the response is not a dict), or it raises (the source
distinguishes a not-found message only for logging). -/
inductive CancelOutcome where
  | result (status : Option String)
  | exn (msg : String)
deriving DecidableEq

/-- Method `_cancel_side` (lines 480 to 506), effect on the side record:
without an `order_id` the method returns early leaving the record as it
is; otherwise the `try` / `except` arms only log, and the `finally`
clause overwrites the side with an empty `SideState` for every outcome
of the gateway call. -/
def cancel_side (st : SideState) (outcome : CancelOutcome) : SideState :=
  match st.order_id with
  | none => st
  | some _ =>
    match outcome with
    | _ => {}

/-- Gateway calls issued by `_cancel_side`: a cancel request is sent
exactly when the side holds an `order_id`. -/
def cancel_call (st : SideState) : List String :=
  match st.order_id with
  | none => []
  | some oid => [oid]

/-- Method `_cancel_side` lifted to the engine state: the method reads
and writes only the chosen side record (`self.state.bid` or
`self.state.ask`); every other engine-state field is untouched. -/
def cancel_side_engine (st : MMState) (isBid : Bool) (outcome : CancelOutcome) :
    MMState :=
  if isBid then { st with bid := cancel_side st.bid outcome }
  else { st with ask := cancel_side st.ask outcome }

/-- Method `_cancel_both` (lines 508 to 512): cancel the bid side, then
the ask side. -/
def cancel_both (st : MMState) (obid oask : CancelOutcome) : MMState :=
  cancel_side_engine (cancel_side_engine st true obid) false oask

/-- Gateway order actions issued during one cycle. -/
inductive Action where
  | cancelOrder (oid : String)
  | placeOrder (side : String) (price qty : ℚ)
deriving DecidableEq

/-- Gateway behaviour for one cycle: the outcomes of the (up to) two
cancel calls and two place calls, and the fresh client ids generated by
`_new_client_id` (opaque strings in this model). -/
structure Cycle where
  bidCancel : CancelOutcome := .result (some "CANCELED")
  askCancel : CancelOutcome := .result (some "CANCELED")
  bidPlace : PlaceOutcome := .ok none
  askPlace : PlaceOutcome := .ok none
  bidCid : String := ""
  askCid : String := ""

/-- Lines 397 to 427 of `step()`: the order-action block once the rate
limiter has allowed the cycle.  Both sides are cancelled, the quote
counter is bumped, each eligible side is placed (the side record is
saved only when the placement returned an order id), and finally
`prev_mid` records the mid used.  The list collects the gateway order
actions in issue order. -/
def execCycle (q : Quote) (g : Cycle) (m : ℚ) (st1 : MMState) :
    MMState × List Action :=
  let cacts := (cancel_call st1.bid ++ cancel_call st1.ask).map Action.cancelOrder
  let st2 := { cancel_both st1 g.bidCancel g.askCancel with
               quote_count := st1.quote_count + 1 }
  let bidStep : MMState × List Action :=
    if q.can_buy && q.bid_ok then
      let pr := place_limit g.bidCid q.bid_px_q q.bid_qty_q g.bidPlace
        st2.order_count_1min
      let st3 := { st2 with order_count_1min := pr.2 }
      (if pr.1.order_id.isSome then { st3 with bid := pr.1 } else st3,
       [Action.placeOrder "BUY" q.bid_px_q q.bid_qty_q])
    else (st2, [])
  let askStep : MMState × List Action :=
    if q.can_sell && q.ask_ok then
      let pr := place_limit g.askCid q.ask_px_q q.ask_qty_q g.askPlace
        bidStep.1.order_count_1min
      let st4 := { bidStep.1 with order_count_1min := pr.2 }
      (if pr.1.order_id.isSome then { st4 with ask := pr.1 } else st4,
       [Action.placeOrder "SELL" q.ask_px_q q.ask_qty_q])
    else (bidStep.1, [])
  ({ askStep.1 with prev_mid := some m }, cacts ++ bidStep.2 ++ askStep.2)

/-- Lines 295 to 427 of `step()`: the quote computation followed by the
order-action block.  On an abort (`computeQuote = none`), when
`should_quote` is false, or when the rate limiter refuses, no gateway
order action is issued. -/
def stepQuote (p : Params) (c : ContractSpec) (st : MMState)
    (m atr_val tr1 equity now : ℚ) (g : Cycle) : MMState × List Action :=
  match computeQuote p c st.prev_mid st.pos_qty m atr_val tr1 equity with
  | none => (st, [])
  | some q =>
    if q.should_quote then
      let rl := check_rate_limit 30 now st.order_count_1min st.last_order_reset
      let st1 := { st with order_count_1min := rl.2.1, last_order_reset := rl.2.2 }
      if !rl.1 then (st1, []) else
      execCycle q g m st1
    else (st, [])

/-- Net counter increment of one `_place_limit` call: 1 when the
gateway call returns (line 464 is reached), 0 when it raises (the
`except` arm skips the increment). -/
def placeInc : PlaceOutcome → ℕ
  | .ok _ => 1
  | .exn _ => 0

/-! ### Helper lemmas about the Decimal quantizer -/

lemma decDiv_eq_floor (v s : ℚ) (h : 0 ≤ v / s) : decDiv v s = ⌊v / s⌋ := by
  simp [decDiv, h]

lemma decDiv_mul_le (v s : ℚ) (hv : 0 ≤ v) (hs : 0 < s) :
    (decDiv v s : ℚ) * s ≤ v := by
  have hq : 0 ≤ v / s := div_nonneg hv hs.le
  rw [decDiv_eq_floor v s hq]
  have h1 : (⌊v / s⌋ : ℚ) * s ≤ (v / s) * s :=
    mul_le_mul_of_nonneg_right (Int.floor_le _) hs.le
  have h2 : (v / s) * s = v := div_mul_cancel₀ v hs.ne'
  linarith

lemma le_decDiv_mul (v s : ℚ) (hs : 0 < s) (k : ℤ) (hk : (k : ℚ) * s ≤ v) :
    (k : ℚ) * s ≤ (decDiv v s : ℚ) * s := by
  have hks : (k : ℚ) ≤ v / s := (le_div_iff₀ hs).2 hk
  have h2 : (k : ℚ) ≤ (decDiv v s : ℚ) := by
    by_cases h : 0 ≤ v / s
    · rw [decDiv_eq_floor v s h]
      exact_mod_cast Int.le_floor.2 hks
    · simp only [decDiv, if_neg h]
      have h4 : (⌊-(v / s)⌋ : ℚ) ≤ -(k : ℚ) := le_trans (Int.floor_le _) (by linarith)
      push_cast
      linarith
  exact mul_le_mul_of_nonneg_right h2 hs.le

lemma decMod_int_mul (k : ℤ) (s : ℚ) (hs : s ≠ 0) : decMod ((k : ℚ) * s) s = 0 := by
  have h : (k : ℚ) * s / s = (k : ℚ) := mul_div_cancel_right₀ _ hs
  unfold decMod decDiv
  rw [h]
  by_cases hk : 0 ≤ (k : ℚ)
  · rw [if_pos hk, Int.floor_intCast]
    ring
  · rw [if_neg hk]
    have h5 : -(k : ℚ) = ((-k : ℤ) : ℚ) := by push_cast; ring
    rw [h5, Int.floor_intCast]
    push_cast
    ring

lemma decMod_eq_zero_iff (v s : ℚ) (hs : 0 < s) (hq : 0 ≤ v / s) :
    decMod v s = 0 ↔ v / s = (⌊v / s⌋ : ℚ) := by
  rw [decMod, decDiv_eq_floor v s hq, div_eq_iff hs.ne']
  constructor
  · intro h
    linarith
  · intro h
    linarith

lemma neg_one_le_skewOf (a b : ℚ) : -1 ≤ skewOf a b := le_max_left _ _

lemma skewOf_le_one (a b : ℚ) : skewOf a b ≤ 1 :=
  max_le (by norm_num) (min_le_left _ _)

lemma q_price_floor_le (c : ContractSpec) (v : ℚ) (hv : 0 ≤ v)
    (hs : 0 < c.tick_size) : c.q_price_floor v ≤ v :=
  decDiv_mul_le v c.tick_size hv hs

lemma le_q_price_ceil (c : ContractSpec) (v : ℚ) (hv : 0 ≤ v)
    (hs : 0 < c.tick_size) : v ≤ c.q_price_ceil v := by
  unfold ContractSpec.q_price_ceil
  split
  · exact le_refl v
  · have hq : 0 ≤ v / c.tick_size := div_nonneg hv hs.le
    rw [decDiv_eq_floor v c.tick_size hq]
    have h1 : v / c.tick_size < (⌊v / c.tick_size⌋ : ℚ) + 1 := Int.lt_floor_add_one _
    have h2 : (v / c.tick_size) * c.tick_size = v := div_mul_cancel₀ v hs.ne'
    have h3 : (v / c.tick_size) * c.tick_size ≤ ((⌊v / c.tick_size⌋ : ℚ) + 1) * c.tick_size :=
      mul_le_mul_of_nonneg_right h1.le hs.le
    linarith

/-! ### Helper lemmas about the engine cycle -/

lemma cancel_side_engine_frame (st : MMState) (b : Bool) (o : CancelOutcome) :
    (cancel_side_engine st b o).prev_mid = st.prev_mid ∧
    (cancel_side_engine st b o).pos_qty = st.pos_qty ∧
    (cancel_side_engine st b o).order_count_1min = st.order_count_1min ∧
    (cancel_side_engine st b o).last_order_reset = st.last_order_reset ∧
    (cancel_side_engine st b o).quote_count = st.quote_count := by
  unfold cancel_side_engine
  split <;> exact ⟨rfl, rfl, rfl, rfl, rfl⟩

lemma cancel_both_frame (st : MMState) (o1 o2 : CancelOutcome) :
    (cancel_both st o1 o2).prev_mid = st.prev_mid ∧
    (cancel_both st o1 o2).pos_qty = st.pos_qty ∧
    (cancel_both st o1 o2).order_count_1min = st.order_count_1min ∧
    (cancel_both st o1 o2).last_order_reset = st.last_order_reset ∧
    (cancel_both st o1 o2).quote_count = st.quote_count := by
  unfold cancel_both cancel_side_engine
  split <;> split <;> exact ⟨rfl, rfl, rfl, rfl, rfl⟩

lemma place_limit_count (cid : String) (price qty : ℚ) (o : PlaceOutcome)
    (n : ℕ) : (place_limit cid price qty o n).2 = n + placeInc o := by
  cases o <;> rfl

lemma placeInc_le_one (o : PlaceOutcome) : placeInc o ≤ 1 := by
  cases o <;> simp [placeInc]

lemma execCycle_proj (q : Quote) (g : Cycle) (m : ℚ) (st1 : MMState) :
    (execCycle q g m st1).1.prev_mid = some m ∧
    (execCycle q g m st1).1.pos_qty = st1.pos_qty ∧
    (execCycle q g m st1).1.last_order_reset = st1.last_order_reset ∧
    (execCycle q g m st1).1.quote_count = st1.quote_count + 1 ∧
    (execCycle q g m st1).1.order_count_1min = st1.order_count_1min +
      ((if q.can_buy && q.bid_ok then placeInc g.bidPlace else 0) +
       (if q.can_sell && q.ask_ok then placeInc g.askPlace else 0)) := by
  unfold execCycle
  rcases cancel_both_frame st1 g.bidCancel g.askCancel with ⟨c1, c2, c3, c4, c5⟩
  cases hb : q.can_buy && q.bid_ok <;> cases ha : q.can_sell && q.ask_ok <;>
    cases ob : g.bidPlace <;> cases oa : g.askPlace <;>
    simp [place_limit, placeInc, c1, c2, c3, c4, c5,
      apply_ite MMState.prev_mid, apply_ite MMState.pos_qty,
      apply_ite MMState.order_count_1min, apply_ite MMState.last_order_reset,
      apply_ite MMState.quote_count]

lemma execCycle_acts (q : Quote) (g : Cycle) (m : ℚ) (st1 : MMState) :
    (execCycle q g m st1).2 =
      (cancel_call st1.bid ++ cancel_call st1.ask).map Action.cancelOrder ++
      ((if q.can_buy && q.bid_ok then
          [Action.placeOrder "BUY" q.bid_px_q q.bid_qty_q] else []) ++
       (if q.can_sell && q.ask_ok then
          [Action.placeOrder "SELL" q.ask_px_q q.ask_qty_q] else [])) := by
  unfold execCycle
  cases hb : q.can_buy && q.bid_ok <;> cases ha : q.can_sell && q.ask_ok <;> simp

lemma stepQuote_none (p : Params) (c : ContractSpec) (st : MMState)
    (m atr_val tr1 equity now : ℚ) (g : Cycle)
    (h : computeQuote p c st.prev_mid st.pos_qty m atr_val tr1 equity = none) :
    stepQuote p c st m atr_val tr1 equity now g = (st, []) := by
  unfold stepQuote
  rw [h]

lemma stepQuote_not_should (p : Params) (c : ContractSpec) (st : MMState)
    (m atr_val tr1 equity now : ℚ) (g : Cycle) (q : Quote)
    (hq : computeQuote p c st.prev_mid st.pos_qty m atr_val tr1 equity = some q)
    (hsq : q.should_quote = false) :
    stepQuote p c st m atr_val tr1 equity now g = (st, []) := by
  unfold stepQuote
  rw [hq]
  simp [hsq]

lemma stepQuote_blocked (p : Params) (c : ContractSpec) (st : MMState)
    (m atr_val tr1 equity now : ℚ) (g : Cycle) (q : Quote)
    (hq : computeQuote p c st.prev_mid st.pos_qty m atr_val tr1 equity = some q)
    (hsq : q.should_quote = true)
    (hrl : (check_rate_limit 30 now st.order_count_1min st.last_order_reset).1
      = false) :
    stepQuote p c st m atr_val tr1 equity now g =
      ({ st with
          order_count_1min :=
            (check_rate_limit 30 now st.order_count_1min st.last_order_reset).2.1,
          last_order_reset :=
            (check_rate_limit 30 now st.order_count_1min st.last_order_reset).2.2 },
       []) := by
  unfold stepQuote
  rw [hq]
  simp [hsq, hrl]

lemma stepQuote_exec (p : Params) (c : ContractSpec) (st : MMState)
    (m atr_val tr1 equity now : ℚ) (g : Cycle) (q : Quote)
    (hq : computeQuote p c st.prev_mid st.pos_qty m atr_val tr1 equity = some q)
    (hsq : q.should_quote = true)
    (hrl : (check_rate_limit 30 now st.order_count_1min st.last_order_reset).1
      = true) :
    stepQuote p c st m atr_val tr1 equity now g =
      execCycle q g m
        { st with
          order_count_1min :=
            (check_rate_limit 30 now st.order_count_1min st.last_order_reset).2.1,
          last_order_reset :=
            (check_rate_limit 30 now st.order_count_1min st.last_order_reset).2.2 } := by
  unfold stepQuote
  rw [hq]
  simp [hsq, hrl]

lemma stepQuote_blocked2 (p : Params) (c : ContractSpec) (st : MMState)
    (m atr_val tr1 equity now : ℚ) (g : Cycle) (q : Quote) (cnt1 : ℕ) (lr1 : ℚ)
    (hq : computeQuote p c st.prev_mid st.pos_qty m atr_val tr1 equity = some q)
    (hsq : q.should_quote = true)
    (hcrl : check_rate_limit 30 now st.order_count_1min st.last_order_reset
      = (false, cnt1, lr1)) :
    stepQuote p c st m atr_val tr1 equity now g =
      ({ st with order_count_1min := cnt1, last_order_reset := lr1 }, []) := by
  unfold stepQuote
  rw [hq]
  simp [hsq, hcrl]

lemma stepQuote_exec2 (p : Params) (c : ContractSpec) (st : MMState)
    (m atr_val tr1 equity now : ℚ) (g : Cycle) (q : Quote) (cnt1 : ℕ) (lr1 : ℚ)
    (hq : computeQuote p c st.prev_mid st.pos_qty m atr_val tr1 equity = some q)
    (hsq : q.should_quote = true)
    (hcrl : check_rate_limit 30 now st.order_count_1min st.last_order_reset
      = (true, cnt1, lr1)) :
    stepQuote p c st m atr_val tr1 equity now g =
      execCycle q g m { st with order_count_1min := cnt1, last_order_reset := lr1 } := by
  unfold stepQuote
  rw [hq]
  simp [hsq, hcrl]

lemma check_rate_limit_open_pass (mo : ℕ) (now last : ℚ) (cnt : ℕ)
    (h60 : ¬ now - last ≥ 60) (hc : cnt < mo) :
    check_rate_limit mo now cnt last = (true, cnt, last) := by
  unfold check_rate_limit
  rw [if_neg h60]
  simp [Nat.not_le.2 hc]

lemma check_rate_limit_open_block (mo : ℕ) (now last : ℚ) (cnt : ℕ)
    (h60 : ¬ now - last ≥ 60) (hc : mo ≤ cnt) :
    check_rate_limit mo now cnt last = (false, cnt, last) := by
  unfold check_rate_limit
  rw [if_neg h60]
  simp [hc]

lemma check_rate_limit_reset (mo : ℕ) (now last : ℚ) (cnt : ℕ)
    (h60 : now - last ≥ 60) (hmo : 0 < mo) :
    check_rate_limit mo now cnt last = (true, 0, now) := by
  unfold check_rate_limit
  rw [if_pos h60]
  simp [Nat.not_le.2 hmo]

/-! ### Claim theorems -/

/-- Claim C4: for positive value and increment, `q_price_floor` (and
`q_qty`) return the largest increment multiple that is at most the
value, `q_price_ceil` returns the smallest increment multiple that is
at least the value, with an exact multiple returned unchanged; and the
worked examples with tick 0.01 and step 0.001 hold on the default
`ContractSpec`. -/
theorem C4_quantizer_correct :
    (∀ (c : ContractSpec) (v : ℚ), 0 < v → 0 < c.tick_size →
      ((∃ k : ℤ, c.q_price_floor v = (k : ℚ) * c.tick_size) ∧
       c.q_price_floor v ≤ v ∧
       (∀ k : ℤ, (k : ℚ) * c.tick_size ≤ v → (k : ℚ) * c.tick_size ≤ c.q_price_floor v) ∧
       (∃ k : ℤ, c.q_price_ceil v = (k : ℚ) * c.tick_size) ∧
       v ≤ c.q_price_ceil v ∧
       (∀ k : ℤ, v ≤ (k : ℚ) * c.tick_size → c.q_price_ceil v ≤ (k : ℚ) * c.tick_size) ∧
       (∀ k : ℤ, v = (k : ℚ) * c.tick_size → c.q_price_ceil v = v))) ∧
    (∀ (c : ContractSpec) (v : ℚ), 0 < v → 0 < c.step_size →
      ((∃ k : ℤ, c.q_qty v = (k : ℚ) * c.step_size) ∧
       c.q_qty v ≤ v ∧
       (∀ k : ℤ, (k : ℚ) * c.step_size ≤ v → (k : ℚ) * c.step_size ≤ c.q_qty v))) ∧
    ({} : ContractSpec).q_price_floor (100.004 : ℚ) = 100 ∧
    ({} : ContractSpec).q_price_ceil (100.004 : ℚ) = 100.01 ∧
    ({} : ContractSpec).q_price_ceil (100 : ℚ) = 100 ∧
    ({} : ContractSpec).q_qty (1.2349 : ℚ) = 1.234 := by
  refine ⟨?_, ?_, ?_, ?_, ?_, ?_⟩
  · intro c v hv hs
    have hq : 0 ≤ v / c.tick_size := div_nonneg hv.le hs.le
    refine ⟨⟨decDiv v c.tick_size, rfl⟩,
            q_price_floor_le c v hv.le hs,
            fun k hk => le_decDiv_mul v c.tick_size hs k hk,
            ?_, le_q_price_ceil c v hv.le hs, ?_, ?_⟩
    · by_cases h : decMod v c.tick_size = 0
      · refine ⟨decDiv v c.tick_size, ?_⟩
        unfold ContractSpec.q_price_ceil
        rw [if_pos h]
        have h2 : v - (decDiv v c.tick_size : ℚ) * c.tick_size = 0 := h
        linarith
      · refine ⟨decDiv v c.tick_size + 1, ?_⟩
        unfold ContractSpec.q_price_ceil
        rw [if_neg h]
        push_cast
        ring
    · intro k hk
      by_cases h : decMod v c.tick_size = 0
      · unfold ContractSpec.q_price_ceil
        rw [if_pos h]
        exact hk
      · unfold ContractSpec.q_price_ceil
        rw [if_neg h, decDiv_eq_floor v c.tick_size hq]
        have hne : v / c.tick_size ≠ (⌊v / c.tick_size⌋ : ℚ) :=
          fun he => h ((decMod_eq_zero_iff v c.tick_size hs hq).2 he)
        have hlt : (⌊v / c.tick_size⌋ : ℚ) < v / c.tick_size :=
          lt_of_le_of_ne (Int.floor_le _) (Ne.symm hne)
        have hks : v / c.tick_size ≤ (k : ℚ) := (div_le_iff₀ hs).2 hk
        have hik : ⌊v / c.tick_size⌋ + 1 ≤ k := by
          have h6 : ⌊v / c.tick_size⌋ < k := by exact_mod_cast lt_of_lt_of_le hlt hks
          omega
        have h7 := mul_le_mul_of_nonneg_right
          (show ((⌊v / c.tick_size⌋ + 1 : ℤ) : ℚ) ≤ (k : ℚ) by exact_mod_cast hik) hs.le
        push_cast at h7 ⊢
        linarith
    · intro k hk
      unfold ContractSpec.q_price_ceil
      rw [if_pos (by rw [hk]; exact decMod_int_mul k c.tick_size hs.ne')]
  · intro c v hv hs
    exact ⟨⟨decDiv v c.step_size, rfl⟩,
           decDiv_mul_le v c.step_size hv.le hs,
           fun k hk => le_decDiv_mul v c.step_size hs k hk⟩
  · norm_num [ContractSpec.q_price_floor, ContractSpec.q_price, decDiv]
  · norm_num [ContractSpec.q_price_ceil, decMod, decDiv]
  · norm_num [ContractSpec.q_price_ceil, decMod, decDiv]
  · norm_num [ContractSpec.q_qty, decDiv]

/-- Witness for claim C4 at value 100.004 and tick 0.01. -/
theorem C4_quantizer_correct_witness :
    (0 : ℚ) < 100.004 ∧ (0 : ℚ) < ({} : ContractSpec).tick_size ∧
    ({} : ContractSpec).q_price_floor (100.004 : ℚ) ≤ 100.004 :=
  ⟨by norm_num, show (0 : ℚ) < 1 / 100 by norm_num,
   (C4_quantizer_correct.1 {} 100.004 (by norm_num)
     (show (0 : ℚ) < 1 / 100 by norm_num)).2.1⟩

/-- Claim C3: `ATR.update_bar` returns the true range `h - l` when no
previous close is recorded and `max (h - l) (max |h - prevClose| |l - prevClose|)`
otherwise; the first call sets the smoothed value to the true range and
every later call sets it to `(1 - alpha) * previous + alpha * trueRange`
with `alpha = 1 / length`; `prev_close` is updated to `c` only when
`closed` is true; and the worked length-14 example holds. -/
theorem C3_atr_update_bar :
    (∀ (a : ATR) (o h l c : ℚ) (closed : Bool),
      (a.prev_close = none → (a.update_bar o h l c closed).2.2 = h - l) ∧
      (∀ pc, a.prev_close = some pc →
        (a.update_bar o h l c closed).2.2 = max (h - l) (max |h - pc| |l - pc|)) ∧
      (a.rma = none →
        (a.update_bar o h l c closed).2.1 = (a.update_bar o h l c closed).2.2) ∧
      (∀ r, a.rma = some r →
        (a.update_bar o h l c closed).2.1 =
          (1 - a.alpha) * r + a.alpha * (a.update_bar o h l c closed).2.2) ∧
      (a.update_bar o h l c closed).1.rma = some ((a.update_bar o h l c closed).2.1) ∧
      (closed = true → (a.update_bar o h l c closed).1.prev_close = some c) ∧
      (closed = false → (a.update_bar o h l c closed).1.prev_close = a.prev_close) ∧
      (a.update_bar o h l c closed).1.len = a.len ∧
      (a.update_bar o h l c closed).1.alpha = a.alpha) ∧
    (∀ n : ℕ, (ATR.init n).alpha = 1 / (n : ℚ)) ∧
    (ATR.init 14).update_bar 100 105 95 100 true =
      ({ len := 14, rma := some 10, prev_close := some 100, alpha := 1/14 }, 10, 10) ∧
    ((ATR.init 14).update_bar 100 105 95 100 true).1.update_bar 102 108 98 103 true =
      ({ len := 14, rma := some 10, prev_close := some 103, alpha := 1/14 }, 10, 10) := by
  refine ⟨?_, fun n => rfl, ?_, ?_⟩
  · intro a o h l c closed
    refine ⟨?_, ?_, ?_, ?_, rfl, ?_, ?_, rfl, rfl⟩
    · intro hp
      simp [ATR.update_bar, ATR.trueRange, hp]
    · intro pc hp
      simp [ATR.update_bar, ATR.trueRange, hp]
    · intro hr
      simp [ATR.update_bar, hr]
    · intro r hr
      simp [ATR.update_bar, hr]
    · intro hc
      simp [ATR.update_bar, hc]
    · intro hc
      simp [ATR.update_bar, hc]
  · norm_num [ATR.init, ATR.update_bar, ATR.trueRange]
  · norm_num [ATR.init, ATR.update_bar, ATR.trueRange, Prod.ext_iff, ATR.mk.injEq]

/-- Witness for claim C3: the recurrence hypotheses discharged on the
length-14 state after one closed bar. -/
theorem C3_atr_update_bar_witness :
    ((ATR.init 14).update_bar 100 105 95 100 true).1.prev_close = some 100 ∧
    (((ATR.init 14).update_bar 100 105 95 100 true).1.update_bar 102 108 98 103
      true).2.2 = max (108 - 98 : ℚ) (max |108 - (100 : ℚ)| |98 - (100 : ℚ)|) := by
  have hst : ((ATR.init 14).update_bar 100 105 95 100 true).1.prev_close = some 100 := by
    norm_num [ATR.init, ATR.update_bar, ATR.trueRange]
  exact ⟨hst,
    ((C3_atr_update_bar.1 (((ATR.init 14).update_bar 100 105 95 100 true).1)
      102 108 98 103 true).2.1) 100 hst⟩

/-- Claim C5: whenever the quote computation completes (so in
particular `max_notional > 0`), the skew it records equals
`clamp (positionNotional / maxNotional) (-1) 1` and lies in `[-1, 1]`;
and the scenario table balance 10000, invBudgetPct 50, price 50000
gives skews 0, 0.5, 1 (clamped) and -0.5 for positions 0, 0.05, 0.10
and -0.05. -/
theorem C5_skew_clamped :
    (∀ (p : Params) (c : ContractSpec) (pm : Option ℚ) (pos m atr tr1 eq1 : ℚ)
      (q : Quote), computeQuote p c pm pos m atr tr1 eq1 = some q →
        q.skew = clamp (pos * m / (eq1 * (p.invBudgetPct / 100))) (-1) 1 ∧
        -1 ≤ q.skew ∧ q.skew ≤ 1) ∧
    skewOf (0 * 50000) (10000 * (50 / 100)) = 0 ∧
    skewOf ((5/100) * 50000) (10000 * (50 / 100)) = 1/2 ∧
    skewOf ((10/100) * 50000) (10000 * (50 / 100)) = 1 ∧
    skewOf (-(5/100) * 50000) (10000 * (50 / 100)) = -1/2 := by
  refine ⟨?_, ?_, ?_, ?_, ?_⟩
  · intro p c pm pos m atr tr1 eq1 q hq
    unfold computeQuote at hq
    split at hq
    · exact absurd hq (by simp)
    · split at hq
      · exact absurd hq (by simp)
      · split at hq
        · exact absurd hq (by simp)
        · rename_i hmax h1 h2
          have hq2 := Option.some.inj hq
          have hskew : q.skew = skewCycle p pos m eq1 := by rw [← hq2]; rfl
          rw [hskew]
          unfold max_notionalOf at hmax
          refine ⟨?_, neg_one_le_skewOf _ _, skewOf_le_one _ _⟩
          unfold skewCycle skewOf max_notionalOf
          rw [if_pos (lt_of_not_le hmax)]
  · norm_num [skewOf, clamp, max_def, min_def]
  · norm_num [skewOf, clamp, max_def, min_def]
  · norm_num [skewOf, clamp, max_def, min_def]
  · norm_num [skewOf, clamp, max_def, min_def]

/-- Claim C1: every quoting cycle that reaches order placement (the
quote computation completed, mid price positive, positive tick size)
has its quantized bid strictly below the mid price and its quantized
ask strictly above it; the safety margin `min_offsetOf` and the
post-quantization correction branches guarantee the ordering. -/
theorem C1_bid_lt_mid_lt_ask (p : Params) (c : ContractSpec) (pm : Option ℚ)
    (pos m atr tr1 eq1 : ℚ) (q : Quote) (hm : 0 < m) (ht : 0 < c.tick_size)
    (hq : computeQuote p c pm pos m atr tr1 eq1 = some q) :
    q.bid_px_q < m ∧ m < q.ask_px_q := by
  unfold computeQuote at hq
  split at hq
  · exact absurd hq (by simp)
  · split at hq
    · exact absurd hq (by simp)
    · split at hq
      · exact absurd hq (by simp)
      · have hq2 := Option.some.inj hq
        have hmo : 0 < min_offsetOf m := by
          unfold min_offsetOf
          linarith
        have hbid : q.bid_px_q = bid_px_qOf p c pos m eq1 atr := by
          rw [← hq2]
          rfl
        have hask : q.ask_px_q = ask_px_qOf p c pos m eq1 atr := by
          rw [← hq2]
          rfl
        constructor
        · rw [hbid]
          unfold bid_px_qOf
          split
          · have h0 : (0 : ℚ) ≤ m - min_offsetOf m := by
              unfold min_offsetOf at *
              linarith
            have h1 := q_price_floor_le c (m - min_offsetOf m) h0 ht
            linarith
          · rename_i hlt
            exact lt_of_not_le hlt
        · rw [hask]
          unfold ask_px_qOf
          split
          · have h0 : (0 : ℚ) ≤ m + min_offsetOf m := by linarith
            have h1 := le_q_price_ceil c (m + min_offsetOf m) h0 ht
            linarith
          · rename_i hlt
            exact lt_of_not_le hlt

/-! ### Concrete evaluation scenario

A configuration that passes `env_config.validate_config`, the default
contract spec, a flat position, equity 10000 and ATR 0.3, evaluated at
mid prices 100 and 200.  These closed-form quote values feed the
witnesses and the rate-limiter trace below. -/

def cfgC : Params :=
  { invBudgetPct := 50, baseOrderPct := 10, slipGuardATR := 0,
    requoteBps := 10, minFullBps := 10, maxFullBps := 100, kATR := 1,
    bullBiasBps := 0, useBullBias := false, skewDamp := 3/10,
    sizeAmp := 3/2, longBiasOnly := false }

/-- Quote produced by `cfgC` at mid 100 (flat position, equity 10000,
ATR 0.3, default contract spec). -/
def qA : Quote :=
  { should_quote := true, skew := 0, half_w := 3/10,
    bid_px_q := 997/10, ask_px_q := 1003/10,
    bid_qty_q := 1003/100, ask_qty_q := 997/100,
    can_buy := true, can_sell := true, bid_ok := true, ask_ok := true }

/-- Quote produced by `cfgC` at mid 200. -/
def qB : Quote :=
  { should_quote := true, skew := 0, half_w := 3/10,
    bid_px_q := 1997/10, ask_px_q := 2003/10,
    bid_qty_q := 5007/1000, ask_qty_q := 624/125,
    can_buy := true, can_sell := true, bid_ok := true, ask_ok := true }

lemma computeQuote_A (pm : Option ℚ) (hpm : pm = none ∨ pm = some 200) :
    computeQuote cfgC {} pm 0 100 (3/10) 0 10000 = some qA := by
  rcases hpm with h | h <;> subst h <;>
    norm_num [computeQuote, quoteVal, should_quoteOf, max_notionalOf, skewCycle,
      skewOf, half_wOf, bull_shiftOf, inv_offsetOf, min_offsetOf, bid_pxOf,
      ask_pxOf, bid_qty_qOf, ask_qty_qOf, bid_px_q0Of, ask_px_q0Of, bid_px_qOf,
      ask_px_qOf, can_buyOf, can_sellOf, bid_okOf, ask_okOf, ContractSpec.q_qty,
      ContractSpec.q_price_floor, ContractSpec.q_price_ceil, ContractSpec.q_price,
      decDiv, decMod, clamp, bps_to_price, pct_of, cfgC, qA, max_def, min_def,
      Quote.mk.injEq]

lemma computeQuote_B :
    computeQuote cfgC {} (some 100) 0 200 (3/10) 0 10000 = some qB := by
  norm_num [computeQuote, quoteVal, should_quoteOf, max_notionalOf, skewCycle,
    skewOf, half_wOf, bull_shiftOf, inv_offsetOf, min_offsetOf, bid_pxOf,
    ask_pxOf, bid_qty_qOf, ask_qty_qOf, bid_px_q0Of, ask_px_q0Of, bid_px_qOf,
    ask_px_qOf, can_buyOf, can_sellOf, bid_okOf, ask_okOf, ContractSpec.q_qty,
    ContractSpec.q_price_floor, ContractSpec.q_price_ceil, ContractSpec.q_price,
    decDiv, decMod, clamp, bps_to_price, pct_of, cfgC, qB, max_def, min_def,
    Quote.mk.injEq]

/-- Witness for claim C1 at the concrete mid-100 scenario. -/
theorem C1_bid_lt_mid_lt_ask_witness :
    (0 : ℚ) < 100 ∧ (0 : ℚ) < ({} : ContractSpec).tick_size ∧
    (qA.bid_px_q < 100 ∧ (100 : ℚ) < qA.ask_px_q) :=
  ⟨by norm_num, show (0 : ℚ) < 1 / 100 by norm_num,
   C1_bid_lt_mid_lt_ask cfgC {} none 0 100 (3/10) 0 10000 qA (by norm_num)
     (show (0 : ℚ) < 1 / 100 by norm_num) (computeQuote_A none (Or.inl rfl))⟩

/-- Witness for claim C5 at the concrete mid-100 scenario. -/
theorem C5_skew_clamped_witness :
    qA.skew = clamp (0 * 100 / (10000 * ((50 : ℚ) / 100))) (-1) 1 ∧
    -1 ≤ qA.skew ∧ qA.skew ≤ 1 :=
  C5_skew_clamped.1 cfgC {} none 0 100 (3/10) 0 10000 qA
    (computeQuote_A none (Or.inl rfl))

/-- Claim C6: in every completed quote computation `can_buy` holds iff
`positionNotional < maxNotional`, and `can_sell` holds iff
`positionQuantity > 0` under `longBiasOnly`, else iff
`positionNotional > -maxNotional`; and in an executed cycle each side
is placed iff its own gating and eligibility flags pass, independently
of the state of the other side. -/
theorem C6_risk_gating :
    (∀ (p : Params) (c : ContractSpec) (pm : Option ℚ) (pos m atr tr1 eq1 : ℚ)
      (q : Quote), computeQuote p c pm pos m atr tr1 eq1 = some q →
        ((q.can_buy = true ↔ pos * m < eq1 * (p.invBudgetPct / 100)) ∧
         (p.longBiasOnly = true → (q.can_sell = true ↔ 0 < pos)) ∧
         (p.longBiasOnly = false →
           (q.can_sell = true ↔ -(eq1 * (p.invBudgetPct / 100)) < pos * m)))) ∧
    (∀ (p : Params) (c : ContractSpec) (st : MMState) (m atr tr1 eq1 now : ℚ)
      (g : Cycle) (q : Quote),
      computeQuote p c st.prev_mid st.pos_qty m atr tr1 eq1 = some q →
      q.should_quote = true →
      (check_rate_limit 30 now st.order_count_1min st.last_order_reset).1 = true →
        ((Action.placeOrder "BUY" q.bid_px_q q.bid_qty_q ∈
            (stepQuote p c st m atr tr1 eq1 now g).2 ↔
          (q.can_buy && q.bid_ok) = true) ∧
         (Action.placeOrder "SELL" q.ask_px_q q.ask_qty_q ∈
            (stepQuote p c st m atr tr1 eq1 now g).2 ↔
          (q.can_sell && q.ask_ok) = true))) := by
  constructor
  · intro p c pm pos m atr tr1 eq1 q hq
    unfold computeQuote at hq
    split at hq
    · exact absurd hq (by simp)
    · split at hq
      · exact absurd hq (by simp)
      · split at hq
        · exact absurd hq (by simp)
        · have hq2 := Option.some.inj hq
          have hbuy : q.can_buy = can_buyOf p pos m eq1 := by
            rw [← hq2]
            rfl
          have hsell : q.can_sell = can_sellOf p pos m eq1 := by
            rw [← hq2]
            rfl
          refine ⟨?_, ?_, ?_⟩
          · rw [hbuy]
            unfold can_buyOf max_notionalOf
            exact decide_eq_true_iff
          · intro hlb
            rw [hsell]
            unfold can_sellOf
            rw [if_pos hlb]
            exact decide_eq_true_iff
          · intro hlb
            rw [hsell]
            unfold can_sellOf max_notionalOf
            rw [if_neg (by rw [hlb]; exact Bool.false_ne_true)]
            simp [decide_eq_true_iff]
  · intro p c st m atr tr1 eq1 now g q hq hsq hrl
    rw [stepQuote_exec p c st m atr tr1 eq1 now g q hq hsq hrl, execCycle_acts]
    cases hb : q.can_buy && q.bid_ok <;> cases ha : q.can_sell && q.ask_ok <;>
      simp

/-- Witness for claim C6 at the concrete mid-100 scenario. -/
theorem C6_risk_gating_witness :
    qA.can_buy = true ↔ (0 : ℚ) * 100 < 10000 * (cfgC.invBudgetPct / 100) :=
  (C6_risk_gating.1 cfgC {} none 0 100 (3/10) 0 10000 qA
    (computeQuote_A none (Or.inl rfl))).1

/-- Claim C8: when the computed `max_notional = equity * (invBudgetPct / 100)`
is non-positive, `step()` returns without issuing any gateway order
action and with the engine state (bid, ask, prev_mid, order counter,
window start, quote counter) unchanged; the model is total, matching
the fact that this path raises nothing. -/
theorem C8_nonpositive_max_notional (p : Params) (c : ContractSpec)
    (st : MMState) (m atr_val tr1 equity now : ℚ) (g : Cycle)
    (h : equity * (p.invBudgetPct / 100) ≤ 0) :
    stepQuote p c st m atr_val tr1 equity now g = (st, []) := by
  apply stepQuote_none
  unfold computeQuote
  rw [if_pos (show max_notionalOf p equity ≤ 0 from h)]

/-- Witness for claim C8 at equity 0. -/
theorem C8_nonpositive_max_notional_witness :
    (0 : ℚ) * (cfgC.invBudgetPct / 100) ≤ 0 ∧
    stepQuote cfgC {} {} 100 (3/10) 0 0 0 {} = ({}, []) :=
  ⟨by norm_num [cfgC], C8_nonpositive_max_notional cfgC {} {} 100 (3/10) 0 0 0 {}
    (by norm_num [cfgC])⟩

/-- Claim C9: `prev_mid` is set (to the mid of the cycle) exactly when a
quote cycle executed; when the computation aborts, `should_quote` is
false, or the rate limiter refuses, no gateway order action is issued
and `prev_mid` and `quote_count` are unchanged. -/
theorem C9_prev_mid_frame :
    (∀ (p : Params) (c : ContractSpec) (st : MMState) (m atr tr1 eq1 now : ℚ)
      (g : Cycle),
      computeQuote p c st.prev_mid st.pos_qty m atr tr1 eq1 = none →
        stepQuote p c st m atr tr1 eq1 now g = (st, [])) ∧
    (∀ (p : Params) (c : ContractSpec) (st : MMState) (m atr tr1 eq1 now : ℚ)
      (g : Cycle) (q : Quote),
      computeQuote p c st.prev_mid st.pos_qty m atr tr1 eq1 = some q →
      q.should_quote = false →
        stepQuote p c st m atr tr1 eq1 now g = (st, [])) ∧
    (∀ (p : Params) (c : ContractSpec) (st : MMState) (m atr tr1 eq1 now : ℚ)
      (g : Cycle) (q : Quote),
      computeQuote p c st.prev_mid st.pos_qty m atr tr1 eq1 = some q →
      q.should_quote = true →
      (check_rate_limit 30 now st.order_count_1min st.last_order_reset).1 = false →
        ((stepQuote p c st m atr tr1 eq1 now g).2 = [] ∧
         (stepQuote p c st m atr tr1 eq1 now g).1.prev_mid = st.prev_mid ∧
         (stepQuote p c st m atr tr1 eq1 now g).1.quote_count = st.quote_count)) ∧
    (∀ (p : Params) (c : ContractSpec) (st : MMState) (m atr tr1 eq1 now : ℚ)
      (g : Cycle) (q : Quote),
      computeQuote p c st.prev_mid st.pos_qty m atr tr1 eq1 = some q →
      q.should_quote = true →
      (check_rate_limit 30 now st.order_count_1min st.last_order_reset).1 = true →
        (stepQuote p c st m atr tr1 eq1 now g).1.prev_mid = some m) := by
  refine ⟨?_, ?_, ?_, ?_⟩
  · intro p c st m atr tr1 eq1 now g h
    exact stepQuote_none p c st m atr tr1 eq1 now g h
  · intro p c st m atr tr1 eq1 now g q hq hsq
    exact stepQuote_not_should p c st m atr tr1 eq1 now g q hq hsq
  · intro p c st m atr tr1 eq1 now g q hq hsq hrl
    rw [stepQuote_blocked p c st m atr tr1 eq1 now g q hq hsq hrl]
    exact ⟨rfl, rfl, rfl⟩
  · intro p c st m atr tr1 eq1 now g q hq hsq hrl
    rw [stepQuote_exec p c st m atr tr1 eq1 now g q hq hsq hrl]
    exact (execCycle_proj q g m _).1

/-- Witness for claim C9: an aborted cycle (equity 0) leaves the state
untouched and issues no action. -/
theorem C9_prev_mid_frame_witness :
    stepQuote cfgC {} {} 100 (3/10) 0 0 0 {} = ({}, []) :=
  C9_prev_mid_frame.1 cfgC {} {} 100 (3/10) 0 0 0 {}
    (by unfold computeQuote
        rw [if_pos (show max_notionalOf cfgC 0 ≤ 0 by norm_num [max_notionalOf, cfgC])])

/-- Claim C10: `_cancel_side` is total (every gateway outcome, including
a raised exception, is absorbed; the `finally` clause runs) and clears
the side record to empty whenever the side holds an order id; hence
`_cancel_both` leaves both sides empty for every gateway behaviour,
from any state whose sides hold an order id or are already empty. -/
theorem C10_cancel_side_clears :
    (∀ (st : SideState) (o : CancelOutcome), st.order_id.isSome = true →
      cancel_side st o = {}) ∧
    (∀ (st : MMState) (o1 o2 : CancelOutcome),
      (st.bid.order_id.isSome = true ∨ st.bid = {}) →
      (st.ask.order_id.isSome = true ∨ st.ask = {}) →
      ((cancel_both st o1 o2).bid = {} ∧ (cancel_both st o1 o2).ask = {})) := by
  have hside : ∀ (st : SideState) (o : CancelOutcome), st.order_id.isSome = true →
      cancel_side st o = {} := by
    intro st o h
    rcases hs : st.order_id with _ | oid
    · rw [hs] at h
      exact absurd h (by simp)
    · unfold cancel_side
      rw [hs]
  have hempty : ∀ (o : CancelOutcome), cancel_side {} o = {} := fun o => rfl
  refine ⟨hside, ?_⟩
  intro st o1 o2 hb ha
  have hbid : (cancel_both st o1 o2).bid = cancel_side st.bid o1 := rfl
  have hask : (cancel_both st o1 o2).ask = cancel_side st.ask o2 := rfl
  constructor
  · rw [hbid]
    rcases hb with hb | hb
    · exact hside st.bid o1 hb
    · rw [hb]
      exact hempty o1
  · rw [hask]
    rcases ha with ha | ha
    · exact hside st.ask o2 ha
    · rw [ha]
      exact hempty o2

/-- Witness for claim C10: a resting order cancelled while the gateway
raises is still cleared. -/
theorem C10_cancel_side_clears_witness :
    (SideState.mk (some "cid") (some "oid") (some 100) (some 1)).order_id.isSome
      = true ∧
    cancel_side (SideState.mk (some "cid") (some "oid") (some 100) (some 1))
      (CancelOutcome.exn "connection lost") = {} :=
  ⟨rfl, C10_cancel_side_clears.1
    (SideState.mk (some "cid") (some "oid") (some 100) (some 1))
    (CancelOutcome.exn "connection lost") rfl⟩

/-- Counterexample for claim C7 as stated: when the gateway call inside
`_place_limit` raises, the counter increment (which sits after the call
inside the `try` block) is skipped, so the counter is not incremented
on that placement attempt. -/
theorem C7_count_counterexample :
    (place_limit "cid" (997/10) (1003/100) (PlaceOutcome.exn "rejected") 5).2
      ≠ 5 + 1 := by
  simp [place_limit]

/-- Claim C7 amended: `order_count_1min` is incremented exactly once for
every `_place_limit` call whose gateway call returns (whether or not an
order id is present), is left unchanged when the gateway call raises,
and is never changed by `_cancel_side` or `_cancel_both`. -/
theorem C7_count_increment_policy :
    (∀ (cid : String) (price qty : ℚ) (oid : Option String) (n : ℕ),
      (place_limit cid price qty (PlaceOutcome.ok oid) n).2 = n + 1) ∧
    (∀ (cid : String) (price qty : ℚ) (e : String) (n : ℕ),
      (place_limit cid price qty (PlaceOutcome.exn e) n).2 = n) ∧
    (∀ (st : MMState) (b : Bool) (o : CancelOutcome),
      (cancel_side_engine st b o).order_count_1min = st.order_count_1min) ∧
    (∀ (st : MMState) (o1 o2 : CancelOutcome),
      (cancel_both st o1 o2).order_count_1min = st.order_count_1min) := by
  refine ⟨fun _ _ _ _ _ => rfl, fun _ _ _ _ _ => rfl, ?_, ?_⟩
  · intro st b o
    exact (cancel_side_engine_frame st b o).2.2.1
  · intro st o1 o2
    exact (cancel_both_frame st o1 o2).2.2.1

/-- Claim C2 amended: the counter can exceed the cap by one (a cycle
allowed at count 29 may place both sides, reaching 31), but never
exceeds 31 = cap + 2 - 1; and whenever the counter is at or above the
cap of 30 at the start of a cycle whose 60-second window is still open,
the entire cycle is skipped: no cancel, no placement, state unchanged. -/
theorem C2_rate_limit_policy :
    (∀ (p : Params) (c : ContractSpec) (st : MMState) (m atr tr1 eq1 now : ℚ)
      (g : Cycle), st.order_count_1min ≤ 31 →
      (stepQuote p c st m atr tr1 eq1 now g).1.order_count_1min ≤ 31) ∧
    (∀ (p : Params) (c : ContractSpec) (st : MMState) (m atr tr1 eq1 now : ℚ)
      (g : Cycle), ¬ now - st.last_order_reset ≥ 60 → 30 ≤ st.order_count_1min →
      stepQuote p c st m atr tr1 eq1 now g = (st, [])) := by
  constructor
  · intro p c st m atr tr1 eq1 now g h31
    rcases hcq : computeQuote p c st.prev_mid st.pos_qty m atr tr1 eq1 with _ | q
    · rw [stepQuote_none p c st m atr tr1 eq1 now g hcq]
      exact h31
    · cases hsq : q.should_quote
      · rw [stepQuote_not_should p c st m atr tr1 eq1 now g q hcq hsq]
        exact h31
      · have hbnd : ∀ st1 : MMState,
            (execCycle q g m st1).1.order_count_1min ≤ st1.order_count_1min + 2 := by
          intro st1
          have e5 := (execCycle_proj q g m st1).2.2.2.2
          have hb := placeInc_le_one g.bidPlace
          have ha := placeInc_le_one g.askPlace
          rw [e5]
          split_ifs <;> omega
        by_cases h60 : now - st.last_order_reset ≥ 60
        · have hcrl := check_rate_limit_reset 30 now st.last_order_reset
            st.order_count_1min h60 (by norm_num)
          rw [stepQuote_exec2 p c st m atr tr1 eq1 now g q 0 now hcq hsq hcrl]
          have h2 := hbnd { st with order_count_1min := 0, last_order_reset := now }
          have h3 : ({ st with order_count_1min := 0, last_order_reset := now } : MMState).order_count_1min = 0 := rfl
          rw [h3] at h2
          omega
        · by_cases hcp : 30 ≤ st.order_count_1min
          · have hcrl := check_rate_limit_open_block 30 now st.last_order_reset
              st.order_count_1min h60 hcp
            rw [stepQuote_blocked2 p c st m atr tr1 eq1 now g q
              st.order_count_1min st.last_order_reset hcq hsq hcrl]
            exact h31
          · have hcrl := check_rate_limit_open_pass 30 now st.last_order_reset
              st.order_count_1min h60 (Nat.not_le.1 hcp)
            rw [stepQuote_exec2 p c st m atr tr1 eq1 now g q st.order_count_1min
              st.last_order_reset hcq hsq hcrl]
            have h2 := hbnd { st with order_count_1min := st.order_count_1min, last_order_reset := st.last_order_reset }
            have h3 : ({ st with order_count_1min := st.order_count_1min, last_order_reset := st.last_order_reset } : MMState).order_count_1min = st.order_count_1min := rfl
            rw [h3] at h2
            omega
  · intro p c st m atr tr1 eq1 now g h60 hcp
    rcases hcq : computeQuote p c st.prev_mid st.pos_qty m atr tr1 eq1 with _ | q
    · exact stepQuote_none p c st m atr tr1 eq1 now g hcq
    · cases hsq : q.should_quote
      · exact stepQuote_not_should p c st m atr tr1 eq1 now g q hcq hsq
      · have hcrl := check_rate_limit_open_block 30 now st.last_order_reset
          st.order_count_1min h60 hcp
        rw [stepQuote_blocked2 p c st m atr tr1 eq1 now g q
          st.order_count_1min st.last_order_reset hcq hsq hcrl]

/-- Witness for the amended claim C2: a cycle starting at the cap with
an open window is a no-op. -/
theorem C2_rate_limit_policy_witness :
    (¬ (0 : ℚ) - ({ order_count_1min := 30 } : MMState).last_order_reset ≥ 60) ∧
    30 ≤ ({ order_count_1min := 30 } : MMState).order_count_1min ∧
    stepQuote cfgC {} { order_count_1min := 30 } 100 (3/10) 0 10000 0 {} =
      ({ order_count_1min := 30 }, []) :=
  ⟨show ¬ (0 : ℚ) - 0 ≥ 60 by norm_num, le_refl 30,
   C2_rate_limit_policy.2 cfgC {} { order_count_1min := 30 } 100 (3/10) 0 10000 0 {}
     (show ¬ (0 : ℚ) - 0 ≥ 60 by norm_num) (le_refl 30)⟩

/-- Gateway behaviour where both placements return order ids. -/
def gOk : Cycle :=
  { bidPlace := .ok (some "bid-id"), askPlace := .ok (some "ask-id"),
    bidCid := "cb", askCid := "ca" }

/-- Gateway behaviour where the ask placement raises (so its counter
increment is skipped, giving the trace its odd counter parity). -/
def gAskRaises : Cycle :=
  { bidPlace := .ok (some "bid-id"), askPlace := .exn "connection reset",
    bidCid := "cb", askCid := "ca" }

/-- One engine cycle of the rate-limiter trace: configuration `cfgC`,
default contract, flat position, equity 10000, ATR 0.3, clock fixed at
0 so every cycle falls inside the first 60-second window. -/
def c2Step (st : MMState) (m : ℚ) (g : Cycle) : MMState :=
  (stepQuote cfgC {} st m (3/10) 0 10000 0 g).1

lemma c2Step_proj (st : MMState) (m : ℚ) (g : Cycle) (q : Quote)
    (hq : computeQuote cfgC {} st.prev_mid st.pos_qty m (3/10) 0 10000 = some q)
    (hsq : q.should_quote = true)
    (hc : st.order_count_1min < 30) (hl : st.last_order_reset = 0) :
    (c2Step st m g).prev_mid = some m ∧
    (c2Step st m g).pos_qty = st.pos_qty ∧
    (c2Step st m g).last_order_reset = 0 ∧
    (c2Step st m g).order_count_1min = st.order_count_1min +
      ((if q.can_buy && q.bid_ok then placeInc g.bidPlace else 0) +
       (if q.can_sell && q.ask_ok then placeInc g.askPlace else 0)) := by
  have hcrl : check_rate_limit 30 0 st.order_count_1min st.last_order_reset
      = (true, st.order_count_1min, st.last_order_reset) := by
    rw [hl]
    exact check_rate_limit_open_pass 30 0 0 st.order_count_1min (by norm_num) hc
  unfold c2Step
  rw [stepQuote_exec2 cfgC {} st m (3/10) 0 10000 0 g q st.order_count_1min
    st.last_order_reset hq hsq hcrl]
  have heta : ({ st with order_count_1min := st.order_count_1min, last_order_reset := st.last_order_reset } : MMState) = st := rfl
  rw [heta]
  rcases execCycle_proj q g m st with ⟨e1, e2, e3, e4, e5⟩
  exact ⟨e1, e2, by rw [e3, hl], e5⟩

/-- The sixteen-cycle trace: alternating mids keep `should_quote` true,
cycle 15 loses its ask increment to a gateway exception, and cycle 16
starts at count 29 (< 30), places both sides and ends at 31. -/
def c2s0 : MMState := {}

def c2s1 : MMState := c2Step c2s0 100 gOk

def c2s2 : MMState := c2Step c2s1 200 gOk

def c2s3 : MMState := c2Step c2s2 100 gOk

def c2s4 : MMState := c2Step c2s3 200 gOk

def c2s5 : MMState := c2Step c2s4 100 gOk

def c2s6 : MMState := c2Step c2s5 200 gOk

def c2s7 : MMState := c2Step c2s6 100 gOk

def c2s8 : MMState := c2Step c2s7 200 gOk

def c2s9 : MMState := c2Step c2s8 100 gOk

def c2s10 : MMState := c2Step c2s9 200 gOk

def c2s11 : MMState := c2Step c2s10 100 gOk

def c2s12 : MMState := c2Step c2s11 200 gOk

def c2s13 : MMState := c2Step c2s12 100 gOk

def c2s14 : MMState := c2Step c2s13 200 gOk

def c2s15 : MMState := c2Step c2s14 100 gAskRaises

def c2s16 : MMState := c2Step c2s15 200 gOk

/-- Counterexample for claim C2 as stated: starting from a fresh state,
sixteen quoting cycles inside one open 60-second window drive
`order_count_1min` to 31 > 30; in particular the 30th and 31st
placements of the window are not blocked (the per-cycle check passed at
count 29 and the cycle then placed two orders). -/
theorem C2_rate_limit_counterexample :
    30 < c2s16.order_count_1min ∧ c2s16.last_order_reset = 0 := by
  have pm0 : c2s0.prev_mid = none := rfl
  have pos0 : c2s0.pos_qty = 0 := rfl
  have lr0 : c2s0.last_order_reset = 0 := rfl
  have cnt0 : c2s0.order_count_1min = 0 := rfl
  have i1 := c2Step_proj c2s0 100 gOk qA
    (by rw [pm0, pos0]; exact computeQuote_A none (Or.inl rfl)) rfl
    (by rw [cnt0]; norm_num) lr0
  have pm1 : c2s1.prev_mid = some 100 := i1.1
  have pos1 : c2s1.pos_qty = 0 := by
    have h := i1.2.1
    rw [pos0] at h
    exact h
  have lr1 : c2s1.last_order_reset = 0 := i1.2.2.1
  have cnt1 : c2s1.order_count_1min = 2 := by
    have h := i1.2.2.2
    rw [cnt0] at h
    exact h
  have i2 := c2Step_proj c2s1 200 gOk qB
    (by rw [pm1, pos1]; exact computeQuote_B) rfl
    (by rw [cnt1]; norm_num) lr1
  have pm2 : c2s2.prev_mid = some 200 := i2.1
  have pos2 : c2s2.pos_qty = 0 := by
    have h := i2.2.1
    rw [pos1] at h
    exact h
  have lr2 : c2s2.last_order_reset = 0 := i2.2.2.1
  have cnt2 : c2s2.order_count_1min = 4 := by
    have h := i2.2.2.2
    rw [cnt1] at h
    exact h
  have i3 := c2Step_proj c2s2 100 gOk qA
    (by rw [pm2, pos2]; exact computeQuote_A (some 200) (Or.inr rfl)) rfl
    (by rw [cnt2]; norm_num) lr2
  have pm3 : c2s3.prev_mid = some 100 := i3.1
  have pos3 : c2s3.pos_qty = 0 := by
    have h := i3.2.1
    rw [pos2] at h
    exact h
  have lr3 : c2s3.last_order_reset = 0 := i3.2.2.1
  have cnt3 : c2s3.order_count_1min = 6 := by
    have h := i3.2.2.2
    rw [cnt2] at h
    exact h
  have i4 := c2Step_proj c2s3 200 gOk qB
    (by rw [pm3, pos3]; exact computeQuote_B) rfl
    (by rw [cnt3]; norm_num) lr3
  have pm4 : c2s4.prev_mid = some 200 := i4.1
  have pos4 : c2s4.pos_qty = 0 := by
    have h := i4.2.1
    rw [pos3] at h
    exact h
  have lr4 : c2s4.last_order_reset = 0 := i4.2.2.1
  have cnt4 : c2s4.order_count_1min = 8 := by
    have h := i4.2.2.2
    rw [cnt3] at h
    exact h
  have i5 := c2Step_proj c2s4 100 gOk qA
    (by rw [pm4, pos4]; exact computeQuote_A (some 200) (Or.inr rfl)) rfl
    (by rw [cnt4]; norm_num) lr4
  have pm5 : c2s5.prev_mid = some 100 := i5.1
  have pos5 : c2s5.pos_qty = 0 := by
    have h := i5.2.1
    rw [pos4] at h
    exact h
  have lr5 : c2s5.last_order_reset = 0 := i5.2.2.1
  have cnt5 : c2s5.order_count_1min = 10 := by
    have h := i5.2.2.2
    rw [cnt4] at h
    exact h
  have i6 := c2Step_proj c2s5 200 gOk qB
    (by rw [pm5, pos5]; exact computeQuote_B) rfl
    (by rw [cnt5]; norm_num) lr5
  have pm6 : c2s6.prev_mid = some 200 := i6.1
  have pos6 : c2s6.pos_qty = 0 := by
    have h := i6.2.1
    rw [pos5] at h
    exact h
  have lr6 : c2s6.last_order_reset = 0 := i6.2.2.1
  have cnt6 : c2s6.order_count_1min = 12 := by
    have h := i6.2.2.2
    rw [cnt5] at h
    exact h
  have i7 := c2Step_proj c2s6 100 gOk qA
    (by rw [pm6, pos6]; exact computeQuote_A (some 200) (Or.inr rfl)) rfl
    (by rw [cnt6]; norm_num) lr6
  have pm7 : c2s7.prev_mid = some 100 := i7.1
  have pos7 : c2s7.pos_qty = 0 := by
    have h := i7.2.1
    rw [pos6] at h
    exact h
  have lr7 : c2s7.last_order_reset = 0 := i7.2.2.1
  have cnt7 : c2s7.order_count_1min = 14 := by
    have h := i7.2.2.2
    rw [cnt6] at h
    exact h
  have i8 := c2Step_proj c2s7 200 gOk qB
    (by rw [pm7, pos7]; exact computeQuote_B) rfl
    (by rw [cnt7]; norm_num) lr7
  have pm8 : c2s8.prev_mid = some 200 := i8.1
  have pos8 : c2s8.pos_qty = 0 := by
    have h := i8.2.1
    rw [pos7] at h
    exact h
  have lr8 : c2s8.last_order_reset = 0 := i8.2.2.1
  have cnt8 : c2s8.order_count_1min = 16 := by
    have h := i8.2.2.2
    rw [cnt7] at h
    exact h
  have i9 := c2Step_proj c2s8 100 gOk qA
    (by rw [pm8, pos8]; exact computeQuote_A (some 200) (Or.inr rfl)) rfl
    (by rw [cnt8]; norm_num) lr8
  have pm9 : c2s9.prev_mid = some 100 := i9.1
  have pos9 : c2s9.pos_qty = 0 := by
    have h := i9.2.1
    rw [pos8] at h
    exact h
  have lr9 : c2s9.last_order_reset = 0 := i9.2.2.1
  have cnt9 : c2s9.order_count_1min = 18 := by
    have h := i9.2.2.2
    rw [cnt8] at h
    exact h
  have i10 := c2Step_proj c2s9 200 gOk qB
    (by rw [pm9, pos9]; exact computeQuote_B) rfl
    (by rw [cnt9]; norm_num) lr9
  have pm10 : c2s10.prev_mid = some 200 := i10.1
  have pos10 : c2s10.pos_qty = 0 := by
    have h := i10.2.1
    rw [pos9] at h
    exact h
  have lr10 : c2s10.last_order_reset = 0 := i10.2.2.1
  have cnt10 : c2s10.order_count_1min = 20 := by
    have h := i10.2.2.2
    rw [cnt9] at h
    exact h
  have i11 := c2Step_proj c2s10 100 gOk qA
    (by rw [pm10, pos10]; exact computeQuote_A (some 200) (Or.inr rfl)) rfl
    (by rw [cnt10]; norm_num) lr10
  have pm11 : c2s11.prev_mid = some 100 := i11.1
  have pos11 : c2s11.pos_qty = 0 := by
    have h := i11.2.1
    rw [pos10] at h
    exact h
  have lr11 : c2s11.last_order_reset = 0 := i11.2.2.1
  have cnt11 : c2s11.order_count_1min = 22 := by
    have h := i11.2.2.2
    rw [cnt10] at h
    exact h
  have i12 := c2Step_proj c2s11 200 gOk qB
    (by rw [pm11, pos11]; exact computeQuote_B) rfl
    (by rw [cnt11]; norm_num) lr11
  have pm12 : c2s12.prev_mid = some 200 := i12.1
  have pos12 : c2s12.pos_qty = 0 := by
    have h := i12.2.1
    rw [pos11] at h
    exact h
  have lr12 : c2s12.last_order_reset = 0 := i12.2.2.1
  have cnt12 : c2s12.order_count_1min = 24 := by
    have h := i12.2.2.2
    rw [cnt11] at h
    exact h
  have i13 := c2Step_proj c2s12 100 gOk qA
    (by rw [pm12, pos12]; exact computeQuote_A (some 200) (Or.inr rfl)) rfl
    (by rw [cnt12]; norm_num) lr12
  have pm13 : c2s13.prev_mid = some 100 := i13.1
  have pos13 : c2s13.pos_qty = 0 := by
    have h := i13.2.1
    rw [pos12] at h
    exact h
  have lr13 : c2s13.last_order_reset = 0 := i13.2.2.1
  have cnt13 : c2s13.order_count_1min = 26 := by
    have h := i13.2.2.2
    rw [cnt12] at h
    exact h
  have i14 := c2Step_proj c2s13 200 gOk qB
    (by rw [pm13, pos13]; exact computeQuote_B) rfl
    (by rw [cnt13]; norm_num) lr13
  have pm14 : c2s14.prev_mid = some 200 := i14.1
  have pos14 : c2s14.pos_qty = 0 := by
    have h := i14.2.1
    rw [pos13] at h
    exact h
  have lr14 : c2s14.last_order_reset = 0 := i14.2.2.1
  have cnt14 : c2s14.order_count_1min = 28 := by
    have h := i14.2.2.2
    rw [cnt13] at h
    exact h
  have i15 := c2Step_proj c2s14 100 gAskRaises qA
    (by rw [pm14, pos14]; exact computeQuote_A (some 200) (Or.inr rfl)) rfl
    (by rw [cnt14]; norm_num) lr14
  have pm15 : c2s15.prev_mid = some 100 := i15.1
  have pos15 : c2s15.pos_qty = 0 := by
    have h := i15.2.1
    rw [pos14] at h
    exact h
  have lr15 : c2s15.last_order_reset = 0 := i15.2.2.1
  have cnt15 : c2s15.order_count_1min = 29 := by
    have h := i15.2.2.2
    rw [cnt14] at h
    exact h
  have i16 := c2Step_proj c2s15 200 gOk qB
    (by rw [pm15, pos15]; exact computeQuote_B) rfl
    (by rw [cnt15]; norm_num) lr15
  have pm16 : c2s16.prev_mid = some 200 := i16.1
  have pos16 : c2s16.pos_qty = 0 := by
    have h := i16.2.1
    rw [pos15] at h
    exact h
  have lr16 : c2s16.last_order_reset = 0 := i16.2.2.1
  have cnt16 : c2s16.order_count_1min = 31 := by
    have h := i16.2.2.2
    rw [cnt15] at h
    exact h
  refine ⟨?_, lr16⟩
  rw [cnt16]
  norm_num

end HBC
